import Mathlib

/-!
# The `blog.engine` widget of `engine.server.js`

A shallow embedding of the server-side widget declaration

    feather.ns("blog");
    blog.engine = feather.widget.create({
      name: "blog.engine",
      path: "widgets/engine/",
      prototype: {
        initialize: function($super, options) { $super(options); },
        doSomething: feather.widget.serverMethod(function(params, arg1, arg2) {
          return { clientArg1: arg1, clientArg2: arg2 };
        })
      }
    });

JavaScript values are structural data, a call binds the parameter names of a
function to the argument list (missing arguments are `undefined`), and a
function body runs over its local frame and an explicit program state `σ`
that stands for everything outside the frame.  A call either returns, throws,
or does not terminate.
-/

set_option autoImplicit false

namespace Feather

/-! ## Values -/

/-- A JavaScript number: every IEEE double is a rational, minus zero, an
infinity or NaN.  The widget never inspects a number. -/
inductive JSNumber where
  | finite (q : ℚ)
  | negZero
  | posInf
  | negInf
  | nan
  deriving DecidableEq

/-- A JavaScript value.  An object is its list of own properties in insertion
order; a function is a reference into the table of callable functions. -/
inductive Value where
  | undefined
  | null
  | bool (b : Bool)
  | number (n : JSNumber)
  | string (s : String)
  | object (fields : List (String × Value))
  | func (ref : Nat)

instance : Inhabited Value := ⟨Value.undefined⟩

/-- The own properties of a value (none for a primitive). -/
def Value.fields : Value → List (String × Value)
  | .object fs => fs
  | _ => []

/-- The own property names, in order. -/
def Value.keys (v : Value) : List String :=
  v.fields.map Prod.fst

/-- The own property `k`, when there is one. -/
def Value.getOwn? (v : Value) (k : String) : Option Value :=
  v.fields.lookup k

/-- Whether the value is an object record. -/
def Value.isObject : Value → Bool
  | .object _ => true
  | _ => false

/-! ## Outcomes of a call -/

/-- What a `throw` carries: the TypeError of calling a non-function, the
ReferenceError of an unbound identifier, or any value thrown by user code. -/
inductive Thrown where
  | typeError
  | referenceError (name : String)
  | value (v : Value)

/-- The outcome of running a call from a state: a returned value, a thrown
error (both with the state reached), or non-termination. -/
inductive Outcome (σ : Type) where
  | ret (v : Value) (s : σ)
  | throw (e : Thrown) (s : σ)
  | diverge

/-- The returned value, when the call returned. -/
def Outcome.value? {σ : Type} : Outcome σ → Option Value
  | .ret v _ => some v
  | _ => none

/-- The thrown error, when the call failed. -/
def Outcome.error? {σ : Type} : Outcome σ → Option Thrown
  | .throw e _ => some e
  | _ => none

/-- The state the call ended in, when it ended. -/
def Outcome.state? {σ : Type} : Outcome σ → Option σ
  | .ret _ s => some s
  | .throw _ s => some s
  | .diverge => none

/-- Whether the call returned normally. -/
def Outcome.succeeds {σ : Type} : Outcome σ → Bool
  | .ret _ _ => true
  | _ => false

/-- Whether the call threw. -/
def Outcome.fails {σ : Type} : Outcome σ → Bool
  | .throw _ _ => true
  | _ => false

/-! ## Calls -/

/-- The behaviour of every function reference: given the argument list and the
state, an outcome.  The framework and its supertypes live here. -/
abbrev FunTable (σ : Type) := Nat → List Value → σ → Outcome σ

/-- The call expression `f(args)`: a function reference runs its behaviour, any
other value is not callable. -/
def callValue {σ : Type} (ft : FunTable σ) (f : Value) (args : List Value) (s : σ) :
    Outcome σ :=
  match f with
  | .func r => ft r args s
  | _ => .throw .typeError s

/-- A function table that records every call made through it. -/
def traced {σ : Type} (ft : FunTable σ) : FunTable (σ × List (Nat × List Value)) :=
  fun r args st =>
    match ft r args st.1 with
    | .ret v s => .ret v (s, st.2 ++ [(r, args)])
    | .throw e s => .throw e (s, st.2 ++ [(r, args)])
    | .diverge => .diverge

/-- The local frame of a call: parameter names and what they are bound to. -/
abbrev Env := List (String × Value)

/-- Binding of parameters to arguments: positional, a missing argument is
`undefined`, surplus arguments are not named. -/
def bindParams : List String → List Value → Env
  | [], _ => []
  | x :: xs, [] => (x, Value.undefined) :: bindParams xs []
  | x :: xs, v :: vs => (x, v) :: bindParams xs vs

/-- A positional argument, `undefined` when the call passed fewer. -/
def argAt (args : List Value) (i : Nat) : Value :=
  args.getD i Value.undefined

/-- Reading an identifier in a frame. -/
def lookupVar (env : Env) (x : String) : Option Value :=
  env.lookup x

/-! ## The widget -/

/-- Parameters of `function(params, arg1, arg2)`. -/
def doSomethingParams : List String := ["params", "arg1", "arg2"]

/-- Body of the function wrapped by `serverMethod`:
`return { clientArg1: arg1, clientArg2: arg2 };`.  Yields the frame after the
body together with the outcome. -/
def doSomethingBody {σ : Type} (env : Env) (s : σ) : Env × Outcome σ :=
  match lookupVar env "arg1" with
  | none => (env, .throw (.referenceError "arg1") s)
  | some v1 =>
    match lookupVar env "arg2" with
    | none => (env, .throw (.referenceError "arg2") s)
    | some v2 => (env, .ret (.object [("clientArg1", v1), ("clientArg2", v2)]) s)

/-- The function `doSomething` wraps, called on an argument list. -/
def engine.doSomething {σ : Type} (args : List Value) (s : σ) : Outcome σ :=
  (doSomethingBody (bindParams doSomethingParams args) s).2

/-- Parameters of `function($super, options)`. -/
def initializeParams : List String := ["$super", "options"]

/-- Body of the initializer: the statement `$super(options);`, then the end of
the function (which returns `undefined`). -/
def initializeBody {σ : Type} (ft : FunTable σ) (env : Env) (s : σ) : Env × Outcome σ :=
  match lookupVar env "$super" with
  | none => (env, .throw (.referenceError "$super") s)
  | some f =>
    match lookupVar env "options" with
    | none => (env, .throw (.referenceError "options") s)
    | some o =>
      match callValue ft f [o] s with
      | .ret _ s1 => (env, .ret .undefined s1)
      | .throw e s1 => (env, .throw e s1)
      | .diverge => (env, .diverge)

/-- The initializer, called on an argument list. -/
def engine.initialize {σ : Type} (ft : FunTable σ) (args : List Value) (s : σ) : Outcome σ :=
  (initializeBody ft (bindParams initializeParams args) s).2

/-- A member of a widget prototype: its parameter names, whether it is wrapped
by `feather.widget.serverMethod`, and its behaviour. -/
structure Member (σ : Type) where
  params : List String
  server : Bool
  run : FunTable σ → List Value → σ → Outcome σ

/-- The record handed to `feather.widget.create`. -/
structure WidgetDef (σ : Type) where
  name : String
  path : String
  prototype : List (String × Member σ)

/-- The object literal of `engine.server.js`. -/
def engineDef (σ : Type) : WidgetDef σ where
  name := "blog.engine"
  path := "widgets/engine/"
  prototype :=
    [("initialize", ⟨initializeParams, false, fun ft args s => engine.initialize ft args s⟩),
     ("doSomething", ⟨doSomethingParams, true, fun _ args s => engine.doSomething args s⟩)]

/-- A top-level statement of the file: a namespace registration or the
assignment of a created widget. -/
inductive TopLevel (σ : Type) where
  | ns (name : String)
  | create (target : String) (d : WidgetDef σ)

/-- The two statements of `engine.server.js`. -/
def script (σ : Type) : List (TopLevel σ) :=
  [.ns "blog", .create "blog.engine" (engineDef σ)]

/-- The widget definitions a script creates. -/
def definedWidgets {σ : Type} (p : List (TopLevel σ)) : List (WidgetDef σ) :=
  p.filterMap fun t =>
    match t with
    | .create _ d => some d
    | .ns _ => none

/-- Names of the members of a prototype. -/
def WidgetDef.memberNames {σ : Type} (d : WidgetDef σ) : List String :=
  d.prototype.map Prod.fst

/-- Names of the members wrapped as server methods. -/
def WidgetDef.serverMethods {σ : Type} (d : WidgetDef σ) : List String :=
  (d.prototype.filter fun m => m.2.server).map Prod.fst

/-! ## Shared lemmas -/

theorem doSomething_frame_lookup (args : List Value) :
    lookupVar (bindParams doSomethingParams args) "params" = some (argAt args 0)
    ∧ lookupVar (bindParams doSomethingParams args) "arg1" = some (argAt args 1)
    ∧ lookupVar (bindParams doSomethingParams args) "arg2" = some (argAt args 2) := by
  rcases args with _ | ⟨a, _ | ⟨b, _ | ⟨c, rest⟩⟩⟩ <;>
    refine ⟨?_, ?_, ?_⟩ <;> rfl

theorem initialize_frame_lookup (args : List Value) :
    lookupVar (bindParams initializeParams args) "$super" = some (argAt args 0)
    ∧ lookupVar (bindParams initializeParams args) "options" = some (argAt args 1) := by
  rcases args with _ | ⟨a, _ | ⟨b, rest⟩⟩ <;>
    refine ⟨?_, ?_⟩ <;> rfl

theorem doSomethingBody_eq {σ : Type} (args : List Value) (s : σ) :
    doSomethingBody (bindParams doSomethingParams args) s
      = (bindParams doSomethingParams args,
          .ret (.object [("clientArg1", argAt args 1), ("clientArg2", argAt args 2)]) s) := by
  obtain ⟨_, h1, h2⟩ := doSomething_frame_lookup args
  simp only [doSomethingBody, h1, h2]

theorem doSomething_eq {σ : Type} (args : List Value) (s : σ) :
    engine.doSomething args s
      = .ret (.object [("clientArg1", argAt args 1), ("clientArg2", argAt args 2)]) s := by
  simp only [engine.doSomething, doSomethingBody_eq]

theorem initialize_eq {σ : Type} (ft : FunTable σ) (args : List Value) (s : σ) :
    engine.initialize ft args s
      = (match callValue ft (argAt args 0) [argAt args 1] s with
        | .ret _ s1 => .ret .undefined s1
        | .throw e s1 => .throw e s1
        | .diverge => .diverge) := by
  obtain ⟨h0, h1⟩ := initialize_frame_lookup args
  simp only [ engine.initialize, initializeBody, h0, h1]
  cases callValue ft (argAt args 0) [argAt args 1] s <;> rfl

/-! ## Results -/

/-- C1: for every state, `params`, `a1` and `a2`, the function wrapped by
`serverMethod` returns the record whose field `clientArg1` holds `a1`, whose
field `clientArg2` holds `a2`, and which has no other field; in particular
`doSomething({}, "x", 42)` returns the record of `"x"` and `42`. -/
theorem doSomething_returns_echo_record {σ : Type} (s : σ) (p a1 a2 : Value) :
    (∃ r, ( engine.doSomething [p, a1, a2] s).value? = some r
      ∧ r = .object [("clientArg1", a1), ("clientArg2", a2)]
      ∧ r.isObject = true
      ∧ r.getOwn? "clientArg1" = some a1
      ∧ r.getOwn? "clientArg2" = some a2
      ∧ r.keys = ["clientArg1", "clientArg2"])
    ∧ ( engine.doSomething [.object [], .string "x", .number (.finite 42)] s).value?
        = some (.object [("clientArg1", .string "x"), ("clientArg2", .number (.finite 42))]) := by
  refine ⟨⟨_, congrArg Outcome.value? (doSomething_eq [p, a1, a2] s), ?_⟩, ?_⟩
  · refine ⟨rfl, rfl, rfl, rfl, rfl⟩
  · exact congrArg Outcome.value? (doSomething_eq _ s)

/-- C2: the outcome of `doSomething` does not depend on `params`: two calls
that differ only in the first argument have the same outcome. -/
theorem doSomething_ignores_params {σ : Type} (s : σ) (p p' a1 a2 : Value) :
    ( engine.doSomething [p, a1, a2] s : Outcome σ) = engine.doSomething [p', a1, a2] s := by
  rw [doSomething_eq, doSomething_eq]
  rfl

/-- C3, as the spec states it, fails: at `doSomething({}, "x", 42)` the
returned record does not have three fields, and none of them is `params`. -/
theorem doSomething_record_not_three_fields :
    ¬ ∃ r, ( engine.doSomething [.object [], .string "x", .number (.finite 42)] ()).value?
          = some r
        ∧ (r.keys.length = 3 ∨ "params" ∈ r.keys) := by
  rintro ⟨r, hr, h⟩
  have h0 := congrArg Outcome.value?
    (doSomething_eq [.object [], .string "x", .number (.finite 42)] ())
  rw [h0] at hr
  simp only [Outcome.value?, Option.some.injEq] at hr
  subst hr
  rcases h with h | h
  · exact absurd h (by decide)
  · exact absurd h (by decide)

/-- C3, amended: the record `doSomething` returns has two fields, `clientArg1`
and `clientArg2`, that mirror `arg1` and `arg2` verbatim; `params` is not a field
of it. -/
theorem doSomething_record_two_fields {σ : Type} (s : σ) (p a1 a2 : Value) :
    ∃ r, ( engine.doSomething [p, a1, a2] s).value? = some r
      ∧ r.keys.length = 2
      ∧ r.fields = [("clientArg1", a1), ("clientArg2", a2)]
      ∧ r.getOwn? "params" = none := by
  refine ⟨_, congrArg Outcome.value? (doSomething_eq [p, a1, a2] s), rfl, rfl, rfl⟩

/-- C4, as the spec states it, fails: no field of the result has a value that
is the same for every input (not even one of the two echoed fields). -/
theorem doSomething_no_fixed_field :
    ¬ ∃ (k : String) (v : Value), ∀ p a1 a2 : Value,
        ∃ r, ( engine.doSomething [p, a1, a2] ()).value? = some r ∧ r.getOwn? k = some v := by
  rintro ⟨k, v, h⟩
  obtain ⟨r1, hr1, hk1⟩ := h .undefined .undefined .undefined
  obtain ⟨r2, hr2, hk2⟩ := h .undefined .null .null
  have e1 := congrArg Outcome.value? (doSomething_eq [.undefined, .undefined, .undefined] ())
  have e2 := congrArg Outcome.value? (doSomething_eq [.undefined, .null, .null] ())
  rw [e1] at hr1
  rw [e2] at hr2
  simp only [Outcome.value?, Option.some.injEq] at hr1 hr2
  subst hr1
  subst hr2
  simp only [Value.getOwn?, Value.fields, argAt, List.getD, List.get?, Option.getD,
    List.lookup] at hk1 hk2
  by_cases h1 : k = "clientArg1"
  · subst h1
    simp at hk1 hk2
    rw [← hk1] at hk2
    cases hk2
  · by_cases h2 : k = "clientArg2"
    · subst h2
      simp at hk1 hk2
      rw [← hk1] at hk2
      cases hk2
    · have b1 : (k == "clientArg1") = false := by simpa using h1
      have b2 : (k == "clientArg2") = false := by simpa using h2
      simp [b1, b2] at hk1

/-- C4, amended: `doSomething` returns its two arguments and nothing else: every
field of the result is `clientArg1` holding `arg1` or `clientArg2` holding
`arg2`. -/
theorem doSomething_only_echoed_fields {σ : Type} (s : σ) (p a1 a2 : Value) :
    ∃ r, ( engine.doSomething [p, a1, a2] s).value? = some r
      ∧ r.getOwn? "clientArg1" = some a1
      ∧ r.getOwn? "clientArg2" = some a2
      ∧ ∀ kv ∈ r.fields, kv = ("clientArg1", a1) ∨ kv = ("clientArg2", a2) := by
  refine ⟨_, congrArg Outcome.value? (doSomething_eq [p, a1, a2] s), rfl, rfl, ?_⟩
  intro kv hkv
  simpa [Value.fields, argAt] using hkv

/-- C5: `doSomething` has no error path: for every argument list (any number
of arguments, any values) and every state the call returns an object record; it
neither throws nor diverges.  This includes `undefined` and `null` in every
position. -/
theorem doSomething_never_fails {σ : Type} (args : List Value) (s : σ) (p a1 a2 : Value) :
    ( engine.doSomething args s).succeeds = true
    ∧ ( engine.doSomething args s).error? = none
    ∧ (∃ r, ( engine.doSomething args s).value? = some r ∧ r.isObject = true)
    ∧ ( engine.doSomething [p, a1, a2] s).succeeds = true
    ∧ ( engine.doSomething [.undefined, .null, .undefined] s).succeeds = true := by
  rw [doSomething_eq, doSomething_eq, doSomething_eq]
  exact ⟨rfl, rfl, ⟨_, rfl, rfl⟩, rfl, rfl⟩

/-- C6: `initialize` delegates to the supertype initializer with the same
options.  For every function table, every reference `r` to the supertype
initializer, every `options` and every state: the outcome is that of the single
call `$super(options)` with its return value dropped; on a table that records
calls, the calls made are exactly one call of `r` with the one argument
`options`; and the state reached is the state `$super(options)` reaches. -/
theorem initialize_delegates_to_super {σ : Type} (ft : FunTable σ) (r : Nat)
    (options : Value) (s : σ) :
    engine.initialize ft [.func r, options] s
        = (match ft r [options] s with
          | .ret _ s1 => .ret .undefined s1
          | .throw e s1 => .throw e s1
          | .diverge => .diverge)
    ∧ engine.initialize (traced ft) [.func r, options] (s, [])
        = (match ft r [options] s with
          | .ret _ s1 => .ret .undefined (s1, [(r, [options])])
          | .throw e s1 => .throw e (s1, [(r, [options])])
          | .diverge => .diverge)
    ∧ ( engine.initialize ft [.func r, options] s).state? = (ft r [options] s).state? := by
  refine ⟨?_, ?_, ?_⟩
  · rw [initialize_eq]
    rfl
  · rw [initialize_eq]
    simp only [argAt, List.getD, List.get?, Option.getD, callValue, traced, List.nil_append]
    cases ft r [options] s <;> rfl
  · rw [initialize_eq]
    simp only [argAt, List.getD, List.get?, Option.getD, callValue]
    cases ft r [options] s <;> rfl

/-- C7: `initialize` has no error condition of its own.  For every function
table, every value `sup` bound to `$super` (callable or not), every `options`
and every state, `initialize(sup, options)` throws exactly when the call
`sup(options)` throws, and then the same error; it returns exactly when
`sup(options)` returns. -/
theorem initialize_fails_iff_super_fails {σ : Type} (ft : FunTable σ) (sup options : Value)
    (s : σ) :
    ( engine.initialize ft [sup, options] s).error? = (callValue ft sup [options] s).error?
    ∧ ( engine.initialize ft [sup, options] s).fails = (callValue ft sup [options] s).fails
    ∧ ( engine.initialize ft [sup, options] s).succeeds
        = (callValue ft sup [options] s).succeeds := by
  rw [initialize_eq]
  simp only [argAt, List.getD, List.get?, Option.getD]
  cases callValue ft sup [options] s <;> exact ⟨rfl, rfl, rfl⟩

/-- C8: `doSomething` is pure.  For every state and every `params`, `arg1`,
`arg2`: the body leaves the local frame as it found it, so the three parameters
are still bound to the values passed; the call returns in the state it started
from; and a second call with the same arguments, from any state, returns an
equal record. -/
theorem doSomething_is_pure {σ : Type} (s s' : σ) (p a1 a2 : Value) :
    (doSomethingBody (bindParams doSomethingParams [p, a1, a2]) s).1
        = bindParams doSomethingParams [p, a1, a2]
    ∧ lookupVar (doSomethingBody (bindParams doSomethingParams [p, a1, a2]) s).1 "params"
        = some p
    ∧ lookupVar (doSomethingBody (bindParams doSomethingParams [p, a1, a2]) s).1 "arg1"
        = some a1
    ∧ lookupVar (doSomethingBody (bindParams doSomethingParams [p, a1, a2]) s).1 "arg2"
        = some a2
    ∧ ( engine.doSomething [p, a1, a2] s).state? = some s
    ∧ ( engine.doSomething [p, a1, a2] s').value? = ( engine.doSomething [p, a1, a2] s).value?
    ∧ ∃ r, ( engine.doSomething [p, a1, a2] s).value? = some r := by
  rw [doSomethingBody_eq, doSomething_eq, doSomething_eq]
  exact ⟨rfl, rfl, rfl, rfl, rfl, rfl, _, rfl⟩

/-- C9: the file defines one widget type, named `blog.engine` with path
`widgets/engine/`, whose prototype has exactly the two members `initialize` and
`doSomething`, of which `doSomething` is the only one wrapped by
`feather.widget.serverMethod`. -/
theorem engine_widget_definition (σ : Type) :
    (definedWidgets (script σ)).length = 1
    ∧ (definedWidgets (script σ)).map WidgetDef.name = ["blog.engine"]
    ∧ (definedWidgets (script σ)).map WidgetDef.path = ["widgets/engine/"]
    ∧ (definedWidgets (script σ)).map WidgetDef.memberNames = [["initialize", "doSomething"]]
    ∧ (definedWidgets (script σ)).map WidgetDef.serverMethods = [["doSomething"]]
    ∧ (engineDef σ).prototype.map (fun m => (m.1, m.2.params, m.2.server))
        = [("initialize", ["$super", "options"], false),
           ("doSomething", ["params", "arg1", "arg2"], true)] := by
  exact ⟨rfl, rfl, rfl, rfl, rfl, rfl⟩

end Feather
